import Mathlib

/-!
Shallow embedding of the core of `app.py` (Universal Social Media Video
Downloader): URL sanitization, platform detection, content-URL validation,
format selection, metadata probing and the download orchestration with its
format-fallback retry, together with theorems settling the frozen claims.

Python strings are modelled as Lean `String` (a list of characters);
Python's `str.lower` is modelled character-wise by `Char.toLower`, and the
regular expressions of `PLATFORM_PATTERNS` are embedded as explicit
pattern ASTs with a backtracking matcher (`matchSeq`), with `(?:a|b)`
top-level alternations expanded into lists of alternative sequences.
Character classes `\w` and `\d` are modelled at their ASCII fragment,
matching the URLs this program processes.
-/

-- ============================================================
-- Basic string primitives (models of the Python str operations)
-- ============================================================

/-- Prefix test on character lists (model of `str.startswith` after `toList`). -/
def isPrefixCs : List Char → List Char → Bool
  | [], _ => true
  | _ :: _, [] => false
  | a :: as, b :: bs => a == b && isPrefixCs as bs

/-- Substring occurrence test on character lists (model of Python `in`). -/
def strContainsCs (hay pat : List Char) : Bool :=
  (List.range (hay.length + 1)).any fun i => isPrefixCs pat (hay.drop i)

/-- Model of Python `pat in s` (substring containment). -/
def strContains (s pat : String) : Bool :=
  strContainsCs s.toList pat.toList

/-- Model of Python `s.startswith(t)`. -/
def strStartsWith (s t : String) : Bool :=
  isPrefixCs t.toList s.toList

/-- Model of Python `s.endswith(t)`. -/
def strEndsWith (s t : String) : Bool :=
  isPrefixCs t.toList.reverse s.toList.reverse

/-- Model of Python `s.lower()` (character-wise, ASCII fragment). -/
def strLower (s : String) : String :=
  String.mk (s.toList.map Char.toLower)

/-- Model of Python `s.count(c)` for a single character `c`. -/
def countChar (s : String) (c : Char) : Nat :=
  s.toList.count c

/-- Model of Python `s.rstrip('/')`: remove every trailing `'/'`. -/
def rstripSlash (s : String) : String :=
  String.mk ((s.toList.reverse.dropWhile (· == '/')).reverse)

/-- Model of Python `s.lstrip('/')`: remove every leading `'/'`. -/
def lstripSlash (s : String) : String :=
  String.mk (s.toList.dropWhile (· == '/'))

/-- Model of Python `''.join(s.split())`: remove every whitespace character. -/
def removeWS (s : String) : String :=
  String.mk (s.toList.filter fun c => !c.isWhitespace)

/-- Model of Python `f.rsplit('.', 1)[0]`: everything before the last `'.'`
(the whole string when no `'.'` occurs). -/
def stripLastExt (f : String) : String :=
  let cs := f.toList
  if cs.contains '.' then String.mk (((cs.reverse.dropWhile (· != '.')).drop 1).reverse)
  else f

-- ============================================================
-- Regular-expression fragment used by PLATFORM_PATTERNS
-- ============================================================

/-- Quantifier on a character class: `{n}` or `+`. -/
inductive Quant where
  | exactly (n : Nat)
  | plus
deriving Repr

/-- One item of a pattern: a literal run of characters, or a quantified
single-character class. -/
inductive RItem where
  | lit (s : String)
  | cls (p : Char → Bool) (q : Quant)

/-- A pattern alternative: a sequence of items matched left to right. -/
abbrev RSeq := List RItem

/-- A full pattern rule: a top-level alternation of sequences (a Python
pattern `(?:a|b)x` is expanded to the alternatives `ax`, `bx`). -/
abbrev Rule := List RSeq

/-- Does some prefix of `cs` match the sequence?  Classes quantified by `+`
backtrack over every positive match length, exactly as Python `re` does for
a single-character class. -/
def matchSeq : RSeq → List Char → Bool
  | [], _ => true
  | .lit s :: rest, cs =>
      isPrefixCs s.toList cs && matchSeq rest (cs.drop s.toList.length)
  | .cls p (.exactly n) :: rest, cs =>
      decide (n ≤ cs.length) && (cs.take n).all p && matchSeq rest (cs.drop n)
  | .cls p .plus :: rest, cs =>
      (List.range (cs.takeWhile p).length).any fun k => matchSeq rest (cs.drop (k + 1))

/-- Model of Python `re.search(seq, s)`: unanchored, match at any start. -/
def reSearch (seq : RSeq) (s : String) : Bool :=
  (List.range (s.toList.length + 1)).any fun i => matchSeq seq (s.toList.drop i)

/-- Search for a rule: any alternative matches anywhere in the string. -/
def ruleSearch (rule : Rule) (s : String) : Bool :=
  rule.any fun seq => reSearch seq s

/-- ASCII fragment of `\w`. -/
def wordChar (c : Char) : Bool := c.isAlphanum || c == '_'

/-- The class `[\w\.-]`. -/
def wordDotDash (c : Char) : Bool := wordChar c || c == '.' || c == '-'

/-- The class `[a-zA-Z0-9_-]`. -/
def idChar (c : Char) : Bool := c.isAlphanum || c == '_' || c == '-'

/-- The class `\d`. -/
def digitChar (c : Char) : Bool := c.isDigit

-- ============================================================
-- PLATFORM_PATTERNS (embedding of the module-level dict)
-- ============================================================

/-- `(?:youtube\.com\/watch\?v=|youtu\.be\/|youtube\.com\/embed\/|youtube\.com\/v\/)([a-zA-Z0-9_-]{11})` -/
def ytRule1 : Rule :=
  [ [.lit "youtube.com/watch?v=", .cls idChar (.exactly 11)],
    [.lit "youtu.be/", .cls idChar (.exactly 11)],
    [.lit "youtube.com/embed/", .cls idChar (.exactly 11)],
    [.lit "youtube.com/v/", .cls idChar (.exactly 11)] ]

/-- `youtube\.com\/shorts\/([a-zA-Z0-9_-]{11})` -/
def ytRule2 : Rule :=
  [ [.lit "youtube.com/shorts/", .cls idChar (.exactly 11)] ]

/-- `tiktok\.com\/@[\w\.-]+\/video\/(\d+)` -/
def ttRule1 : Rule :=
  [ [.lit "tiktok.com/@", .cls wordDotDash .plus, .lit "/video/", .cls digitChar .plus] ]

/-- `vm\.tiktok\.com\/(\w+)` -/
def ttRule2 : Rule :=
  [ [.lit "vm.tiktok.com/", .cls wordChar .plus] ]

/-- `vt\.tiktok\.com\/(\w+)` -/
def ttRule3 : Rule :=
  [ [.lit "vt.tiktok.com/", .cls wordChar .plus] ]

/-- `instagram\.com\/(?:p|reel|tv)\/([a-zA-Z0-9_-]+)` -/
def igRule1 : Rule :=
  [ [.lit "instagram.com/p/", .cls idChar .plus],
    [.lit "instagram.com/reel/", .cls idChar .plus],
    [.lit "instagram.com/tv/", .cls idChar .plus] ]

/-- `facebook\.com\/watch\/\?v=(\d+)` -/
def fbRule1 : Rule :=
  [ [.lit "facebook.com/watch/?v=", .cls digitChar .plus] ]

/-- `facebook\.com\/[\w\.-]+\/videos\/(\d+)` -/
def fbRule2 : Rule :=
  [ [.lit "facebook.com/", .cls wordDotDash .plus, .lit "/videos/", .cls digitChar .plus] ]

/-- `fb\.watch\/(\w+)` -/
def fbRule3 : Rule :=
  [ [.lit "fb.watch/", .cls wordChar .plus] ]

/-- `twitter\.com\/[\w\.-]+\/status\/(\d+)` -/
def twRule1 : Rule :=
  [ [.lit "twitter.com/", .cls wordDotDash .plus, .lit "/status/", .cls digitChar .plus] ]

/-- `x\.com\/[\w\.-]+\/status\/(\d+)` -/
def twRule2 : Rule :=
  [ [.lit "x.com/", .cls wordDotDash .plus, .lit "/status/", .cls digitChar .plus] ]

/-- `snapchat\.com\/t\/(\w+)` -/
def scRule1 : Rule :=
  [ [.lit "snapchat.com/t/", .cls wordChar .plus] ]

/-- `snapchat\.com\/add\/[\w\.-]+` -/
def scRule2 : Rule :=
  [ [.lit "snapchat.com/add/", .cls wordDotDash .plus] ]

/-- The `PLATFORM_PATTERNS` dict, in its declared insertion order. -/
def PLATFORM_PATTERNS : List (String × List Rule) :=
  [ ("youtube", [ytRule1, ytRule2]),
    ("tiktok", [ttRule1, ttRule2, ttRule3]),
    ("instagram", [igRule1]),
    ("facebook", [fbRule1, fbRule2, fbRule3]),
    ("twitter", [twRule1, twRule2]),
    ("snapchat", [scRule1, scRule2]) ]

-- ============================================================
-- URLProcessor
-- ============================================================

/-- Loop of `URLProcessor.detect_platform`: for each platform in dict
order, for each of its patterns in list order, `re.search`; first match
wins. -/
def detectAux (s : String) : List (String × List Rule) → Option String
  | [] => none
  | (p, rules) :: rest =>
      if rules.any (fun r => ruleSearch r s) then some p else detectAux s rest

/-- `URLProcessor.detect_platform`. -/
def detect_platform (url : String) : Option String :=
  detectAux (strLower url) PLATFORM_PATTERNS

/-- The TikTok-specific negative gate of `is_valid_content_url`
(true means the gate rejects). -/
def tiktokGate (url_lower : String) : Bool :=
  strContains url_lower "/explore" ||
  strEndsWith url_lower "tiktok.com/" || strEndsWith url_lower "tiktok.com" ||
  !(strContains url_lower "/video/" || strContains url_lower "vm.tiktok" ||
    strContains url_lower "vt.tiktok")

/-- The YouTube-specific negative gate of `is_valid_content_url`
(true means the gate rejects). -/
def youtubeGate (url_lower : String) : Bool :=
  !(strContains url_lower "watch?v=" || strContains url_lower "/shorts/" ||
    strContains url_lower "youtu.be/")

/-- `URLProcessor.is_valid_content_url`.  The Python `platform` parameter is
`Optional[str]`; `if not url or not platform: return False` covers `None`
and the empty string. -/
def is_valid_content_url_str (url p : String) : Bool :=
  if url = "" ∨ p = "" then false
  else
    let url_lower := strLower url
    if p == "tiktok" && tiktokGate url_lower then false
    else if p == "youtube" && youtubeGate url_lower then false
    else
      match PLATFORM_PATTERNS.lookup p with
      | some rules => rules.any fun r => ruleSearch r url_lower
      | none => false

/-- `URLProcessor.is_valid_content_url` on the optional platform. -/
def is_valid_content_url (url : String) (platform : Option String) : Bool :=
  match platform with
  | none => false
  | some p => is_valid_content_url_str url p

/-- Slash-trimming stage of `sanitize_url`:
`if url.count('/') > 3: url = url.rstrip('/')`. -/
def slashStage (u : String) : String :=
  if countChar u '/' > 3 then rstripSlash u else u

/-- Scheme-prefixing stage of `sanitize_url`. -/
def schemeStage (u : String) : String :=
  if strStartsWith u "http://" || strStartsWith u "https://" then u
  else if strStartsWith u "//" then "https:" ++ u
  else if strStartsWith u "/" then "https://" ++ lstripSlash u
  else "https://" ++ u

/-- `URLProcessor.sanitize_url`. -/
def sanitize_url (url : String) : String :=
  if url = "" then url
  else schemeStage (slashStage (removeWS url))

-- ============================================================
-- DownloadManager: format selection and engine options
-- ============================================================

/-- The TikTok branch of the `quality_map` in `_get_format_selector`. -/
def tiktokQualityMap (q : String) : Option String :=
  if q = "best" then
    some "best[vcodec!=none][acodec!=none]/bestvideo[ext=mp4]+bestaudio[ext=m4a]/bestvideo+bestaudio/best"
  else if q = "1080p" then
    some "best[height<=1080][vcodec!=none][acodec!=none]/bestvideo[height<=1080]+bestaudio/best[height<=1080]"
  else if q = "720p" then
    some "best[height<=720][vcodec!=none][acodec!=none]/bestvideo[height<=720]+bestaudio/best[height<=720]"
  else if q = "480p" then
    some "best[height<=480][vcodec!=none][acodec!=none]/bestvideo[height<=480]+bestaudio/best[height<=480]"
  else if q = "360p" then
    some "best[height<=360][vcodec!=none][acodec!=none]/bestvideo[height<=360]+bestaudio/best[height<=360]"
  else none

/-- The non-TikTok branch of the `quality_map` in `_get_format_selector`. -/
def otherQualityMap (q : String) : Option String :=
  if q = "best" then some "bestvideo[height<=2160]+bestaudio/best"
  else if q = "1080p" then some "bestvideo[height<=1080]+bestaudio/best"
  else if q = "720p" then some "bestvideo[height<=720]+bestaudio/best"
  else if q = "480p" then some "bestvideo[height<=480]+bestaudio/best"
  else if q = "360p" then some "bestvideo[height<=360]+bestaudio/best"
  else none

/-- `DownloadManager._get_format_selector` (`quality_map.get(quality,
quality_map['best'])` is the `getD` of the best tier). -/
def getFormatSelector (quality : String) (extract_audio : Bool)
    (platform : Option String) : String :=
  if extract_audio then "bestaudio/best"
  else if platform == some "tiktok" then
    (tiktokQualityMap quality).getD
      "best[vcodec!=none][acodec!=none]/bestvideo[ext=mp4]+bestaudio[ext=m4a]/bestvideo+bestaudio/best"
  else
    (otherQualityMap quality).getD "bestvideo[height<=2160]+bestaudio/best"

/-- The browser User-Agent header set by `get_base_opts`. -/
def uaHeader : String :=
  "Mozilla/5.0 (Windows NT 10.0; Win64; x64) AppleWebKit/537.36 (KHTML, like Gecko) Chrome/119.0.0.0 Safari/537.36"

/-- The yt-dlp options dict built by `get_base_opts` (the fields this
program ever sets). -/
structure YdlOpts where
  format : String
  outtmpl : String
  quiet : Bool
  no_warnings : Bool
  noplaylist : Bool
  userAgent : String
  referer : Option String
  webpage_download : Bool
  merge_output_format : Option String
  extract_audio_mp3 : Bool
  progress_hooks : Bool
deriving DecidableEq, Repr

/-- `DownloadManager.get_base_opts`. -/
def get_base_opts (quality : String) (extract_audio : Bool)
    (platform : Option String) : YdlOpts :=
  { format := getFormatSelector quality extract_audio platform
    outtmpl := "downloads/%(title)s.%(ext)s"
    quiet := false
    no_warnings := false
    noplaylist := true
    userAgent := uaHeader
    referer := if platform == some "tiktok" then some "https://www.tiktok.com/" else none
    webpage_download := platform == some "tiktok"
    merge_output_format :=
      if platform == some "tiktok" then
        (if !extract_audio then some "mp4" else none)
      else if extract_audio then none
      else some "mp4"
    extract_audio_mp3 := extract_audio
    progress_hooks := false }

-- ============================================================
-- Metadata probing (get_video_info)
-- ============================================================

/-- The probe options built by `get_video_info`. -/
structure ProbeOpts where
  quiet : Bool
  no_warnings : Bool
  skip_download : Bool
  webpage_download : Bool
  userAgent : String
  referer : Option String
deriving DecidableEq, Repr

/-- The fields of the engine's info dict that `get_video_info` reads. -/
structure InfoDict where
  title : Option String
  duration : Option Nat
  thumbnail : Option String
  uploader : Option String
  view_count : Option Nat

/-- The metadata record `get_video_info` returns. -/
structure Metadata where
  title : String
  duration : Nat
  thumbnail : String
  uploader : String
  view_count : Nat

/-- The options dict `get_video_info` passes to the engine. -/
def infoOpts (platform : Option String) : ProbeOpts :=
  { quiet := true
    no_warnings := true
    skip_download := true
    webpage_download := platform == some "tiktok"
    userAgent := uaHeader
    referer := if platform == some "tiktok" then some "https://www.tiktok.com/" else none }

/-- `DownloadManager.get_video_info`: probe the engine; any engine failure
is swallowed into `none` by the surrounding `except Exception`. -/
def get_video_info (probe : ProbeOpts → String → Except String InfoDict)
    (url : String) (platform : Option String) : Option Metadata :=
  let resolved := sanitize_url url
  match probe (infoOpts platform) resolved with
  | .error _ => none
  | .ok info =>
      some { title := info.title.getD "Unknown"
             duration := info.duration.getD 0
             thumbnail := info.thumbnail.getD ""
             uploader := info.uploader.getD "Unknown"
             view_count := info.view_count.getD 0 }

-- ============================================================
-- download_video
-- ============================================================

/-- Result of one engine invocation (`ydl.extract_info(..., download=True)`
plus `prepare_filename`): a produced filename and title, a raised
`yt_dlp.utils.DownloadError` message, or any other raised exception. -/
inductive EngineResult where
  | ok (filename : String) (title : String)
  | raisedDownloadError (msg : String)
  | raisedOther (msg : String)

/-- The return triple of `download_video`:
`(success, filepath or None, title-or-error message or None)`. -/
abbrev DlReturn := Bool × Option String × Option String

/-- The filename checked for existence: after audio extraction the `.mp3`
extension replaces the reported one. -/
def finalFilename (extract_audio : Bool) (filename : String) : String :=
  if extract_audio then stripLastExt filename ++ ".mp3" else filename

/-- Tail of a successful engine call in `download_video`: substitute the
audio extension if needed and check the artifact exists on disk. -/
def finishAttempt (fs : String → Bool) (extract_audio : Bool)
    (filename title : String) : DlReturn :=
  let fname := finalFilename extract_audio filename
  if fs fname then (true, some fname, some title)
  else (false, none, some "File not found after download")

/-- The outer `except yt_dlp.utils.DownloadError` classification in
`download_video`. -/
def classifyDownloadError (msg : String) : DlReturn :=
  if strContains msg "Unable to extract sigi state" then
    (false, none, some "TikTok API Changed. Update yt-dlp: 'pip install --upgrade yt-dlp'")
  else if strContains msg "Private video" || strContains (strLower msg) "private" then
    (false, none, some "This video is private")
  else if strContains msg "Video unavailable" || strContains (strLower msg) "unavailable" then
    (false, none, some "Video unavailable or removed")
  else if strContains msg "Sign in to confirm your age" || strContains (strLower msg) "age" then
    (false, none, some "Age-restricted content")
  else if strContains msg "Unsupported URL" then
    (false, none, some "Unsupported URL. Please ensure you paste a specific video link, not a homepage.")
  else
    (false, none, some ("Download error: " ++ msg))

/-- The options dict as passed to attempt 1: `get_base_opts` plus the
progress hook when one is supplied. -/
def effectiveOpts (quality : String) (extract_audio hasHook : Bool)
    (platform : Option String) : YdlOpts :=
  if hasHook then { get_base_opts quality extract_audio platform with progress_hooks := true }
  else get_base_opts quality extract_audio platform

/-- `DownloadManager.download_video`.  The engine is modelled as a
function from the invocation index (0 = attempt 1, 1 = attempt 2) to its
result, and `os.path.exists` as `fs`.  The returned list records the
options dict passed to each engine invocation, in order. -/
def download_video (fs : String → Bool) (engine : Nat → EngineResult)
    (url : String) (quality : String) (extract_audio : Bool)
    (hasHook : Bool) (platform : Option String) : DlReturn × List YdlOpts :=
  let resolved := sanitize_url url
  if !is_valid_content_url resolved platform then
    ((false, none, some "Invalid URL: This is not a specific video link."), [])
  else
    let opts := effectiveOpts quality extract_audio hasHook platform
    match engine 0 with
    | .ok filename title => (finishAttempt fs extract_audio filename title, [opts])
    | .raisedOther msg => ((false, none, some ("Unexpected error: " ++ msg)), [opts])
    | .raisedDownloadError msg =>
      if strContains msg "Unable to extract sigi state" then
        ((false, none, some "TikTok Security Update. Please update 'yt-dlp': 'pip install --upgrade yt-dlp'"), [opts])
      else if strContains msg "Requested format is not available" ||
              strContains (strLower msg) "format" then
        let opts2 := { opts with format := "best/best", merge_output_format := none }
        match engine 1 with
        | .ok filename title => (finishAttempt fs extract_audio filename title, [opts, opts2])
        | .raisedDownloadError msg2 => (classifyDownloadError msg2, [opts, opts2])
        | .raisedOther msg2 => ((false, none, some ("Unexpected error: " ++ msg2)), [opts, opts2])
      else
        (classifyDownloadError msg, [opts])

-- ============================================================
-- Format-expression alternatives (for stating the C1 claims)
-- ============================================================

/-- Split a format expression into its `'/'`-separated alternatives (the
preference order the extraction engine evaluates left to right). -/
def splitSlashAux : List Char → List Char → List String
  | [], acc => [String.mk acc.reverse]
  | c :: cs, acc =>
      if c == '/' then String.mk acc.reverse :: splitSlashAux cs []
      else splitSlashAux cs (c :: acc)

/-- The ordered alternatives of a format expression. -/
def altsOf (s : String) : List String := splitSlashAux s.toList []

/-- The first alternative of a format expression. -/
def firstAlt (s : String) : String := (altsOf s).headD ""

/-- Does a single alternative require a combined stream carrying both a
video and an audio codec? -/
def requiresBothCodecs (t : String) : Bool :=
  strContains t "[vcodec!=none]" && strContains t "[acodec!=none]"

-- ============================================================
-- Helper lemmas: prefixes, containment and lower-casing
-- ============================================================

theorem listIsPrefix_map (f : Char → Char) :
    ∀ p h : List Char, isPrefixCs p h = true → isPrefixCs (p.map f) (h.map f) = true
  | [], _, _ => rfl
  | _ :: _, [], h => by simp [isPrefixCs] at h
  | a :: as, b :: bs, h => by
      simp only [isPrefixCs, Bool.and_eq_true, beq_iff_eq] at h
      simp only [List.map_cons, isPrefixCs, Bool.and_eq_true, beq_iff_eq]
      exact ⟨by rw [h.1], listIsPrefix_map f as bs h.2⟩

theorem strContainsCs_map (f : Char → Char) (hay pat : List Char)
    (h : strContainsCs hay pat = true) :
    strContainsCs (hay.map f) (pat.map f) = true := by
  unfold strContainsCs at h ⊢
  rw [List.any_eq_true] at h ⊢
  obtain ⟨i, hi, hpre⟩ := h
  refine ⟨i, by simpa [List.length_map] using hi, ?_⟩
  rw [← List.map_drop]
  exact listIsPrefix_map f pat (hay.drop i) hpre

/-- Containment survives lower-casing when the needle is already
lower-case-invariant. -/
theorem strContains_lower (s t : String)
    (ht : t.toList.map Char.toLower = t.toList)
    (h : strContains s t = true) : strContains (strLower s) t = true := by
  unfold strContains at h ⊢
  have := strContainsCs_map Char.toLower s.toList t.toList h
  rw [ht] at this
  exact this

theorem listIsPrefix_append_self : ∀ l r : List Char, isPrefixCs l (l ++ r) = true
  | [], _ => rfl
  | a :: as, r => by simp [isPrefixCs, listIsPrefix_append_self as r]

theorem listIsPrefix_append_both :
    ∀ a p l : List Char, isPrefixCs (a ++ p) (a ++ l) = isPrefixCs p l
  | [], _, _ => rfl
  | c :: cs, p, l => by simp [isPrefixCs, listIsPrefix_append_both cs p l]

theorem toList_append (a b : String) : (a ++ b).toList = a.toList ++ b.toList := rfl

-- ============================================================
-- Helper lemmas: rstrip of trailing slashes
-- ============================================================

theorem dropWhile_slash_head :
    ∀ l : List Char, isPrefixCs ['/'] (l.dropWhile (· == '/')) = false
  | [] => rfl
  | a :: l => by
      by_cases h : (a == '/') = true
      · rw [List.dropWhile_cons, if_pos h]
        exact dropWhile_slash_head l
      · rw [List.dropWhile_cons, if_neg h]
        have ha : ('/' == a) = false :=
          beq_eq_false_iff_ne.mpr (Ne.symm (beq_eq_false_iff_ne.mp (Bool.eq_false_iff.mpr h)))
        simp [isPrefixCs, ha]

theorem rstripSlash_not_endsWith (s : String) :
    strEndsWith (rstripSlash s) "/" = false := by
  show isPrefixCs ['/'] ((s.toList.reverse.dropWhile (· == '/')).reverse).reverse = false
  rw [List.reverse_reverse]
  exact dropWhile_slash_head _

theorem dropWhile_id_of_head_not_slash :
    ∀ l : List Char, isPrefixCs ['/'] l = false → l.dropWhile (· == '/') = l
  | [], _ => rfl
  | a :: l, h => by
      have ha : ('/' == a) = false := by
        by_contra hc
        have : ('/' == a) = true := eq_true_of_ne_false hc
        simp [isPrefixCs, this] at h
      have ha' : (a == '/') = false :=
        beq_eq_false_iff_ne.mpr (Ne.symm (beq_eq_false_iff_ne.mp ha))
      rw [List.dropWhile_cons, if_neg (by simp [ha'])]

theorem rstripSlash_of_not_endsWith (s : String)
    (h : strEndsWith s "/" = false) : rstripSlash s = s := by
  unfold strEndsWith at h
  unfold rstripSlash
  rw [dropWhile_id_of_head_not_slash _ h, List.reverse_reverse]
  rfl

theorem rstripSlash_decomp (s : String) :
    ∃ k, s.toList = (rstripSlash s).toList ++ List.replicate k '/' := by
  refine ⟨(s.toList.reverse.takeWhile (· == '/')).length, ?_⟩
  have hsplit := List.takeWhile_append_dropWhile (p := (· == '/')) (l := s.toList.reverse)
  have hall : ∀ b ∈ s.toList.reverse.takeWhile (· == '/'), b = '/' := by
    intro b hb
    exact beq_iff_eq.mp (List.mem_takeWhile_imp (p := (· == '/')) hb)
  have hrev : (s.toList.reverse.takeWhile (· == '/')).reverse =
      List.replicate (s.toList.reverse.takeWhile (· == '/')).length '/' := by
    have h2 := List.eq_replicate_of_mem
      (l := (s.toList.reverse.takeWhile (· == '/')).reverse) (a := '/')
      (fun b hb => hall b (List.mem_reverse.mp hb))
    simpa [List.length_reverse] using h2
  calc s.toList = s.toList.reverse.reverse := (List.reverse_reverse _).symm
    _ = (s.toList.reverse.takeWhile (· == '/') ++ s.toList.reverse.dropWhile (· == '/')).reverse := by
        rw [hsplit]
    _ = (s.toList.reverse.dropWhile (· == '/')).reverse ++
          (s.toList.reverse.takeWhile (· == '/')).reverse := List.reverse_append _ _
    _ = (rstripSlash s).toList ++ List.replicate (s.toList.reverse.takeWhile (· == '/')).length '/' := by
        rw [hrev]
        rfl

-- ============================================================
-- Helper lemmas: whitespace-freeness and the scheme prefix
-- ============================================================

/-- The string contains no whitespace character. -/
def noWS (s : String) : Prop := ∀ c ∈ s.toList, c.isWhitespace = false

theorem noWS_removeWS (s : String) : noWS (removeWS s) := by
  intro c hc
  have h := List.mem_filter.mp hc
  simpa using h.2

theorem removeWS_of_noWS (s : String) (h : noWS s) : removeWS s = s := by
  unfold removeWS
  rw [List.filter_eq_self.mpr (fun c hc => by simpa using h c hc)]
  rfl

theorem noWS_rstripSlash (s : String) (h : noWS s) : noWS (rstripSlash s) := by
  intro c hc
  apply h
  have hc' : c ∈ s.toList.reverse.dropWhile (· == '/') := List.mem_reverse.mp hc
  exact List.mem_reverse.mp ((List.dropWhile_sublist (· == '/')).subset hc')

theorem noWS_lstripSlash (s : String) (h : noWS s) : noWS (lstripSlash s) := by
  intro c hc
  exact h c ((List.dropWhile_sublist (· == '/')).subset hc)

theorem noWS_append (a b : String) (ha : noWS a) (hb : noWS b) : noWS (a ++ b) := by
  intro c hc
  rw [toList_append, List.mem_append] at hc
  rcases hc with h | h
  · exact ha c h
  · exact hb c h

theorem noWS_slashStage (u : String) (h : noWS u) : noWS (slashStage u) := by
  unfold slashStage
  by_cases hc : countChar u '/' > 3
  · rw [if_pos hc]; exact noWS_rstripSlash u h
  · rw [if_neg hc]; exact h

theorem noWS_of_all (s : String)
    (h : s.toList.all (fun c => !c.isWhitespace) = true) : noWS s := by
  intro c hc
  simpa using List.all_eq_true.mp h c hc

theorem noWS_lit_https : noWS "https:" := noWS_of_all _ (by decide)

theorem noWS_lit_https2 : noWS "https://" := noWS_of_all _ (by decide)

theorem noWS_schemeStage (u : String) (h : noWS u) : noWS (schemeStage u) := by
  unfold schemeStage
  by_cases h1 : (strStartsWith u "http://" || strStartsWith u "https://") = true
  · rw [if_pos h1]; exact h
  · rw [if_neg h1]
    by_cases h2 : strStartsWith u "//" = true
    · rw [if_pos h2]; exact noWS_append _ _ noWS_lit_https h
    · rw [if_neg h2]
      by_cases h3 : strStartsWith u "/" = true
      · rw [if_pos h3]; exact noWS_append _ _ noWS_lit_https2 (noWS_lstripSlash u h)
      · rw [if_neg h3]; exact noWS_append _ _ noWS_lit_https2 h

theorem noWS_sanitize (x : String) : noWS (sanitize_url x) := by
  unfold sanitize_url
  by_cases hx : x = ""
  · rw [if_pos hx, hx]; intro c hc; simp at hc
  · rw [if_neg hx]; exact noWS_schemeStage _ (noWS_slashStage _ (noWS_removeWS x))

theorem schemeStage_startsWith (u : String) :
    strStartsWith (schemeStage u) "http://" = true ∨
    strStartsWith (schemeStage u) "https://" = true := by
  unfold schemeStage
  by_cases h1 : (strStartsWith u "http://" || strStartsWith u "https://") = true
  · rw [if_pos h1]
    rcases Bool.or_eq_true_iff.mp h1 with h | h
    · exact Or.inl h
    · exact Or.inr h
  · rw [if_neg h1]
    by_cases h2 : strStartsWith u "//" = true
    · rw [if_pos h2]
      right
      show isPrefixCs "https://".toList ("https:".toList ++ u.toList) = true
      have : "https://".toList = "https:".toList ++ "//".toList := rfl
      rw [this, listIsPrefix_append_both]
      exact h2
    · rw [if_neg h2]
      by_cases h3 : strStartsWith u "/" = true
      · rw [if_pos h3]
        right
        exact listIsPrefix_append_self "https://".toList (lstripSlash u).toList
      · rw [if_neg h3]
        right
        exact listIsPrefix_append_self "https://".toList u.toList

theorem schemeStage_of_scheme (u : String)
    (h : strStartsWith u "http://" = true ∨ strStartsWith u "https://" = true) :
    schemeStage u = u := by
  unfold schemeStage
  rcases h with h | h <;> simp [h]

theorem slashStage_id (u : String)
    (h : ¬(countChar u '/' > 3 ∧ strEndsWith u "/" = true)) :
    slashStage u = u := by
  unfold slashStage
  by_cases hc : countChar u '/' > 3
  · rw [if_pos hc]
    apply rstripSlash_of_not_endsWith
    exact Bool.eq_false_iff.mpr fun he => h ⟨hc, he⟩
  · rw [if_neg hc]

theorem sanitize_url_startsWith (x : String) (hx : x ≠ "") :
    strStartsWith (sanitize_url x) "http://" = true ∨
    strStartsWith (sanitize_url x) "https://" = true := by
  unfold sanitize_url
  rw [if_neg hx]
  exact schemeStage_startsWith _

theorem sanitize_ne_empty (x : String) (hx : x ≠ "") : sanitize_url x ≠ "" := by
  intro he
  rcases sanitize_url_startsWith x hx with h | h <;> rw [he] at h <;> exact absurd h (by decide)

theorem sanitize_url_ne (y : String) (hy : y ≠ "") :
    sanitize_url y = schemeStage (slashStage (removeWS y)) := by
  unfold sanitize_url
  rw [if_neg hy]

-- ============================================================
-- Helper lemmas: validator gates, detection, early rejection
-- ============================================================

theorem tiktok_gate_rejects (url : String)
    (h : tiktokGate (strLower url) = true) :
    is_valid_content_url url (some "tiktok") = false := by
  show is_valid_content_url_str url "tiktok" = false
  unfold is_valid_content_url_str
  by_cases hu : url = ""
  · rw [if_pos (Or.inl hu)]
  · rw [if_neg (by simp [hu])]
    simp [h]

theorem detectAux_eq_find (s : String) :
    ∀ l : List (String × List Rule),
      detectAux s l = (l.find? fun pr => pr.2.any fun r => ruleSearch r s).map Prod.fst
  | [] => rfl
  | (p, rules) :: rest => by
      by_cases h : (rules.any fun r => ruleSearch r s) = true
      · simp [detectAux, List.find?, h]
      · simp [detectAux, List.find?, h, detectAux_eq_find s rest]

theorem download_invalid_early (fs : String → Bool) (engine : Nat → EngineResult)
    (url quality : String) (ea hk : Bool) (platform : Option String)
    (hv : is_valid_content_url (sanitize_url url) platform = false) :
    download_video fs engine url quality ea hk platform =
      ((false, none, some "Invalid URL: This is not a specific video link."), []) := by
  simp [download_video, hv]

-- ============================================================
-- Claim theorems
-- ============================================================

/-- C4: `download_video` first normalizes the URL (`sanitize_url`) and
re-checks it with the content-URL validator; whenever the normalized form
fails validation it returns the invalid-content failure immediately, with
an empty engine-invocation trace — the engine is never invoked. -/
theorem C4_fail_fast_on_invalid_content_url
    (fs : String → Bool) (engine : Nat → EngineResult)
    (url quality : String) (ea hk : Bool) (platform : Option String)
    (hv : is_valid_content_url (sanitize_url url) platform = false) :
    download_video fs engine url quality ea hk platform =
      ((false, none, some "Invalid URL: This is not a specific video link."), []) :=
  download_invalid_early fs engine url quality ea hk platform hv

theorem C4_witness :
    is_valid_content_url (sanitize_url "https://www.tiktok.com/") (some "tiktok") = false ∧
    download_video (fun _ => true) (fun _ => .ok "downloads/v.mp4" "T")
        "https://www.tiktok.com/" "best" false false (some "tiktok") =
      ((false, none, some "Invalid URL: This is not a specific video link."), []) :=
  ⟨by decide,
   C4_fail_fast_on_invalid_content_url (fun _ => true) (fun _ => .ok "downloads/v.mp4" "T")
     "https://www.tiktok.com/" "best" false false (some "tiktok") (by decide)⟩

/-- C10: calling `download_video` with platform `none` (or the empty
string) returns the invalid-content failure with an empty invocation trace
— the engine is never invoked — because `is_valid_content_url` is false
whenever the platform argument is empty, for every URL. -/
theorem C10_empty_platform_rejected
    (fs : String → Bool) (engine : Nat → EngineResult)
    (url quality : String) (ea hk : Bool) :
    download_video fs engine url quality ea hk none =
      ((false, none, some "Invalid URL: This is not a specific video link."), []) ∧
    download_video fs engine url quality ea hk (some "") =
      ((false, none, some "Invalid URL: This is not a specific video link."), []) ∧
    is_valid_content_url url none = false ∧
    is_valid_content_url url (some "") = false := by
  have h2 : ∀ u, is_valid_content_url u (some "") = false := by
    intro u
    show is_valid_content_url_str u "" = false
    unfold is_valid_content_url_str
    rw [if_pos (Or.inr rfl)]
  exact ⟨download_invalid_early _ _ _ _ _ _ _ rfl,
         download_invalid_early _ _ _ _ _ _ _ (h2 _), rfl, h2 url⟩

/-- C9: whenever the engine probe fails (returns an error), the metadata
fetch `get_video_info` returns `none` instead of propagating the failure;
its return type makes any other failure invisible to the caller. -/
theorem C9_probe_failure_returns_none
    (probe : ProbeOpts → String → Except String InfoDict)
    (url : String) (platform : Option String) (e : String)
    (h : probe (infoOpts platform) (sanitize_url url) = .error e) :
    get_video_info probe url platform = none := by
  simp [get_video_info, h]

theorem C9_witness :
    get_video_info (fun _ _ => .error "network timeout")
      "https://vm.tiktok.com/ZMaaa" (some "tiktok") = none :=
  C9_probe_failure_returns_none _ _ _ "network timeout" rfl

/-- C6: `detect_platform` lower-cases the URL and tests the platforms'
rules in the declared dict order (youtube, tiktok, instagram, facebook,
twitter, snapchat), returning the first platform with a matching rule
(`List.find?` over `PLATFORM_PATTERNS`), and `none` exactly when no rule
of any platform matches anywhere in the lower-cased string.  It is a pure
function of its input by construction. -/
theorem C6_detect_platform_first_match :
    PLATFORM_PATTERNS.map Prod.fst =
      ["youtube", "tiktok", "instagram", "facebook", "twitter", "snapchat"] ∧
    (∀ url, detect_platform url =
      (PLATFORM_PATTERNS.find? fun pr => pr.2.any fun r =>
        ruleSearch r (strLower url)).map Prod.fst) ∧
    (∀ url, detect_platform url = none ↔
      ∀ pr ∈ PLATFORM_PATTERNS, ∀ r ∈ pr.2, ruleSearch r (strLower url) = false) := by
  refine ⟨rfl, fun url => detectAux_eq_find (strLower url) PLATFORM_PATTERNS, fun url => ?_⟩
  unfold detect_platform
  rw [detectAux_eq_find, Option.map_eq_none', List.find?_eq_none]
  constructor
  · intro h pr hpr r hr
    have hnot := h pr hpr
    by_contra hc
    have hrs : ruleSearch r (strLower url) = true :=
      eq_true_of_ne_false hc
    exact hnot (List.any_eq_true.mpr ⟨r, hr, hrs⟩)
  · intro h x hx hax
    obtain ⟨r, hr, hrs⟩ := List.any_eq_true.mp hax
    rw [h x hx r hr] at hrs
    exact Bool.false_ne_true hrs

/-- C3 counterexample: a URL whose upper-case `/VIDEO/` segment means it
lacks all three literal markers `/video/`, `vm.tiktok`, `vt.tiktok`, yet
`is_valid_content_url` accepts it (the code checks the lower-cased URL),
refuting the claim as stated. -/
theorem C3_counterexample :
    strContains "https://www.tiktok.com/@user/VIDEO/123456" "/video/" = false ∧
    strContains "https://www.tiktok.com/@user/VIDEO/123456" "vm.tiktok" = false ∧
    strContains "https://www.tiktok.com/@user/VIDEO/123456" "vt.tiktok" = false ∧
    is_valid_content_url "https://www.tiktok.com/@user/VIDEO/123456" (some "tiktok") = true := by
  decide

/-- C3 (amended): for platform tiktok, `is_valid_content_url` returns
false for every URL containing `/explore`, for the bare domains
`tiktok.com/` and `tiktok.com`, and for every URL whose LOWER-CASED form
lacks all of `/video/`, `vm.tiktok`, `vt.tiktok`; in particular the
TikTok homepage and explore page are rejected. -/
theorem C3_tiktok_content_url_gates :
    (∀ url, strContains url "/explore" = true →
        is_valid_content_url url (some "tiktok") = false) ∧
    is_valid_content_url "tiktok.com/" (some "tiktok") = false ∧
    is_valid_content_url "tiktok.com" (some "tiktok") = false ∧
    (∀ url, strContains (strLower url) "/video/" = false →
        strContains (strLower url) "vm.tiktok" = false →
        strContains (strLower url) "vt.tiktok" = false →
        is_valid_content_url url (some "tiktok") = false) ∧
    is_valid_content_url "https://www.tiktok.com/" (some "tiktok") = false ∧
    is_valid_content_url "https://www.tiktok.com/explore" (some "tiktok") = false := by
  refine ⟨fun url h => ?_, by decide, by decide, fun url h1 h2 h3 => ?_, by decide, by decide⟩
  · apply tiktok_gate_rejects
    unfold tiktokGate
    rw [strContains_lower url "/explore" (by decide) h]
    simp
  · apply tiktok_gate_rejects
    unfold tiktokGate
    rw [h1, h2, h3]
    simp

theorem C3_witness :
    is_valid_content_url "https://www.tiktok.com/foo/explore" (some "tiktok") = false :=
  C3_tiktok_content_url_gates.1 "https://www.tiktok.com/foo/explore" (by decide)

/-- C7 counterexample: `sanitize_url` strips BOTH trailing slashes of
`http://a.b/c//` (Python `rstrip('/')` removes every trailing slash), not
exactly one as claimed. -/
theorem C7_counterexample :
    countChar (removeWS "http://a.b/c//") '/' > 3 ∧
    sanitize_url "http://a.b/c//" = "http://a.b/c" ∧
    ¬ sanitize_url "http://a.b/c//" = "http://a.b/c/" := by
  decide

/-- C7 (amended): for every input whose whitespace-removed form contains
more than three `/` characters, the slash rule of `sanitize_url` removes
ALL trailing `/` characters (possibly none): the stripped form never ends
in `/` and differs from the whitespace-removed form only by a trailing run
of slashes; `sanitize_url` is the scheme stage applied to that stripped
form. -/
theorem C7_slash_rule_strips_all_trailing (url : String)
    (h : countChar (removeWS url) '/' > 3) :
    sanitize_url url = schemeStage (rstripSlash (removeWS url)) ∧
    strEndsWith (rstripSlash (removeWS url)) "/" = false ∧
    ∃ k, (removeWS url).toList = (rstripSlash (removeWS url)).toList ++ List.replicate k '/' := by
  have hs : slashStage (removeWS url) = rstripSlash (removeWS url) := by
    unfold slashStage
    rw [if_pos h]
  refine ⟨?_, rstripSlash_not_endsWith _, rstripSlash_decomp _⟩
  unfold sanitize_url
  by_cases hu : url = ""
  · subst hu
    exact absurd h (by decide)
  · rw [if_neg hu, hs]

theorem C7_witness :
    countChar (removeWS "http://a.b/c///") '/' > 3 ∧
    (sanitize_url "http://a.b/c///" = schemeStage (rstripSlash (removeWS "http://a.b/c///")) ∧
     strEndsWith (rstripSlash (removeWS "http://a.b/c///")) "/" = false ∧
     ∃ k, (removeWS "http://a.b/c///").toList =
       (rstripSlash (removeWS "http://a.b/c///")).toList ++ List.replicate k '/') :=
  ⟨by decide, C7_slash_rule_strips_all_trailing "http://a.b/c///" (by decide)⟩

/-- C8 counterexample: `sanitize_url` is not idempotent: `a.b/c/` has only
two slashes, so the first pass keeps the trailing slash and prepends
`https://`, after which the second pass sees more than three slashes and
strips it. -/
theorem C8_counterexample :
    sanitize_url "a.b/c/" = "https://a.b/c/" ∧
    sanitize_url (sanitize_url "a.b/c/") = "https://a.b/c" ∧
    ¬ sanitize_url (sanitize_url "a.b/c/") = sanitize_url "a.b/c/" := by
  decide

/-- C8 (amended): `sanitize_url` is idempotent on every input whose
normalized form does not again trigger the trailing-slash rule (more than
three `/` and a trailing `/`); on such inputs a second application only
re-fires that rule. -/
theorem C8_normalize_conditionally_idempotent (x : String)
    (h : ¬(countChar (sanitize_url x) '/' > 3 ∧ strEndsWith (sanitize_url x) "/" = true)) :
    sanitize_url (sanitize_url x) = sanitize_url x := by
  by_cases hx : x = ""
  · subst hx
    rfl
  · rw [sanitize_url_ne _ (sanitize_ne_empty x hx),
        removeWS_of_noWS _ (noWS_sanitize x),
        slashStage_id _ h,
        schemeStage_of_scheme _ (sanitize_url_startsWith x hx)]

theorem C8_witness :
    ¬(countChar (sanitize_url "https://e.f/g") '/' > 3 ∧
      strEndsWith (sanitize_url "https://e.f/g") "/" = true) ∧
    sanitize_url (sanitize_url "https://e.f/g") = sanitize_url "https://e.f/g" :=
  ⟨by decide, C8_normalize_conditionally_idempotent "https://e.f/g" (by decide)⟩

/-- C1 counterexample: the capped TikTok tiers do not have the claimed
four-step chain: for quality `1080p` the selector has only three
alternatives, the second carries no matching-container constraint, and the
final fallback is the capped `best[height<=1080]`, not the engine's
generic `best`. -/
theorem C1_counterexample :
    altsOf (getFormatSelector "1080p" false (some "tiktok")) =
      ["best[height<=1080][vcodec!=none][acodec!=none]",
       "bestvideo[height<=1080]+bestaudio",
       "best[height<=1080]"] ∧
    (altsOf (getFormatSelector "1080p" false (some "tiktok"))).length = 3 ∧
    ¬ (altsOf (getFormatSelector "1080p" false (some "tiktok"))).getLast? = some "best" := by
  decide

/-- C1 (amended): for every quality, the TikTok selector's FIRST
alternative is a single combined stream requiring both video and audio
codecs; the full four-step chain (combined, matching-container pair,
any-container pair, generic best) holds for the `best` tier only, while
each capped tier has exactly the three alternatives capped combined
stream, capped best-video plus best-audio (no matching-container step),
and the capped — not generic — `best`; and for every non-TikTok platform
the first alternative never requires combined codecs. -/
theorem C1_format_selector_structure :
    (∀ q, requiresBothCodecs (firstAlt (getFormatSelector q false (some "tiktok"))) = true) ∧
    altsOf (getFormatSelector "best" false (some "tiktok")) =
      ["best[vcodec!=none][acodec!=none]",
       "bestvideo[ext=mp4]+bestaudio[ext=m4a]",
       "bestvideo+bestaudio",
       "best"] ∧
    (altsOf (getFormatSelector "1080p" false (some "tiktok")) =
      ["best[height<=1080][vcodec!=none][acodec!=none]",
       "bestvideo[height<=1080]+bestaudio",
       "best[height<=1080]"] ∧
     altsOf (getFormatSelector "720p" false (some "tiktok")) =
      ["best[height<=720][vcodec!=none][acodec!=none]",
       "bestvideo[height<=720]+bestaudio",
       "best[height<=720]"] ∧
     altsOf (getFormatSelector "480p" false (some "tiktok")) =
      ["best[height<=480][vcodec!=none][acodec!=none]",
       "bestvideo[height<=480]+bestaudio",
       "best[height<=480]"] ∧
     altsOf (getFormatSelector "360p" false (some "tiktok")) =
      ["best[height<=360][vcodec!=none][acodec!=none]",
       "bestvideo[height<=360]+bestaudio",
       "best[height<=360]"]) ∧
    (∀ q p, p ≠ some "tiktok" →
        requiresBothCodecs (firstAlt (getFormatSelector q false p)) = false) := by
  refine ⟨fun q => ?_, by decide, ⟨by decide, by decide, by decide, by decide⟩, fun q p hp => ?_⟩
  · show requiresBothCodecs (firstAlt ((tiktokQualityMap q).getD
      "best[vcodec!=none][acodec!=none]/bestvideo[ext=mp4]+bestaudio[ext=m4a]/bestvideo+bestaudio/best")) = true
    unfold tiktokQualityMap
    split_ifs <;> decide
  · have hbeq : (p == some "tiktok") = false := by
      cases hb : p == some "tiktok"
      · rfl
      · exact absurd (eq_of_beq hb) hp
    simp only [getFormatSelector, Bool.false_eq_true, if_false, hbeq]
    unfold otherQualityMap
    split_ifs <;> decide

theorem C1_witness :
    requiresBothCodecs (firstAlt (getFormatSelector "best" false (some "youtube"))) = false ∧
    requiresBothCodecs (firstAlt (getFormatSelector "720p" false none)) = false :=
  ⟨C1_format_selector_structure.2.2.2 "best" (some "youtube") (by decide),
   C1_format_selector_structure.2.2.2 "720p" none (by decide)⟩

/-- C2: when attempt 1 raises a download error whose message contains
`format` or `Requested format is not available` and not the
extractor-outdated marker, `download_video` retries exactly once: the
invocation trace has exactly the original options followed by the same
options with only the format forced to the engine's generic `best/best`
and the forced-merge directive removed; and when attempt 2 succeeds and
the artifact exists, the result is Success with that artifact. -/
theorem C2_format_error_triggers_generic_retry
    (fs : String → Bool) (engine : Nat → EngineResult)
    (url quality : String) (ea hk : Bool) (platform : Option String) (msg : String)
    (hv : is_valid_content_url (sanitize_url url) platform = true)
    (he : engine 0 = .raisedDownloadError msg)
    (hfmt : strContains msg "Requested format is not available" = true ∨
            strContains msg "format" = true)
    (hsig : strContains msg "Unable to extract sigi state" = false) :
    (download_video fs engine url quality ea hk platform).2 =
      [effectiveOpts quality ea hk platform,
       { effectiveOpts quality ea hk platform with
           format := "best/best", merge_output_format := none }] ∧
    (∀ f t, engine 1 = .ok f t → fs (finalFilename ea f) = true →
        (download_video fs engine url quality ea hk platform).1 =
          (true, some (finalFilename ea f), some t)) := by
  have htrig : (strContains msg "Requested format is not available" ||
      strContains (strLower msg) "format") = true := by
    rcases hfmt with h | h
    · simp [h]
    · simp [strContains_lower msg "format" (by decide) h]
  constructor
  · cases h1 : engine 1 <;>
      simp [download_video, hv, he, hsig, htrig, h1]
  · intro f t h1 hex
    simp only [finalFilename] at hex
    simp [download_video, hv, he, hsig, htrig, h1, finishAttempt, finalFilename, hex]

theorem C2_witness :
    (download_video (fun _ => true)
        (fun n => if n = 0 then .raisedDownloadError "ERROR: Requested format is not available"
                  else .ok "downloads/v.mp4" "T")
        "https://vm.tiktok.com/ZMabc" "best" false false (some "tiktok")).1 =
      (true, some "downloads/v.mp4", some "T") ∧
    (download_video (fun _ => true)
        (fun n => if n = 0 then .raisedDownloadError "ERROR: Requested format is not available"
                  else .ok "downloads/v.mp4" "T")
        "https://vm.tiktok.com/ZMabc" "best" false false (some "tiktok")).2.length = 2 := by
  have h := C2_format_error_triggers_generic_retry (fun _ => true)
    (fun n => if n = 0 then .raisedDownloadError "ERROR: Requested format is not available"
              else .ok "downloads/v.mp4" "T")
    "https://vm.tiktok.com/ZMabc" "best" false false (some "tiktok")
    "ERROR: Requested format is not available"
    (by decide) rfl (Or.inl (by decide)) (by decide)
  refine ⟨h.2 "downloads/v.mp4" "T" rfl rfl, ?_⟩
  rw [h.1]
  rfl

/-- C5 counterexample: a first-attempt error message that contains
`Private video` (and no format-error text) but also the
extractor-outdated marker is classified as the extractor-outdated
failure, not `private_video`, refuting the claim as stated. -/
theorem C5_counterexample :
    strContains "Private video - Unable to extract sigi state" "Private video" = true ∧
    strContains (strLower "Private video - Unable to extract sigi state") "format" = false ∧
    (download_video (fun _ => true)
        (fun _ => .raisedDownloadError "Private video - Unable to extract sigi state")
        "https://vm.tiktok.com/ZMxyz" "best" false false (some "tiktok")).1 =
      (false, none, some "TikTok Security Update. Please update 'yt-dlp': 'pip install --upgrade yt-dlp'") ∧
    ¬ (download_video (fun _ => true)
        (fun _ => .raisedDownloadError "Private video - Unable to extract sigi state")
        "https://vm.tiktok.com/ZMxyz" "best" false false (some "tiktok")).1 =
      (false, none, some "This video is private") := by
  decide

/-- C5 (amended): if attempt 1 raises a download error whose message
contains `Private video`, no format-error text, and NOT the
extractor-outdated marker, `download_video` returns the private-video
failure and the engine is invoked exactly once (no retry). -/
theorem C5_private_video_no_retry
    (fs : String → Bool) (engine : Nat → EngineResult)
    (url quality : String) (ea hk : Bool) (platform : Option String) (msg : String)
    (hv : is_valid_content_url (sanitize_url url) platform = true)
    (he : engine 0 = .raisedDownloadError msg)
    (hp : strContains msg "Private video" = true)
    (hfmt : strContains (strLower msg) "format" = false)
    (hreq : strContains msg "Requested format is not available" = false)
    (hsig : strContains msg "Unable to extract sigi state" = false) :
    download_video fs engine url quality ea hk platform =
      ((false, none, some "This video is private"),
       [effectiveOpts quality ea hk platform]) := by
  simp [download_video, hv, he, hsig, hreq, hfmt, classifyDownloadError, hp]

theorem C5_witness :
    download_video (fun _ => true) (fun _ => .raisedDownloadError "Private video")
        "https://vt.tiktok.com/ZSAbc" "best" false false (some "tiktok") =
      ((false, none, some "This video is private"),
       [effectiveOpts "best" false false (some "tiktok")]) :=
  C5_private_video_no_retry (fun _ => true) (fun _ => .raisedDownloadError "Private video")
    "https://vt.tiktok.com/ZSAbc" "best" false false (some "tiktok") "Private video"
    (by decide) rfl (by decide) (by decide) (by decide) (by decide)
